import Mathlib

/-!
Verification development for the pvsolarsim repository.

Shallow embedding of the core modules named by the claims:
- `atmosphere/cloudcover.py` (cloud attenuation and irradiance redistribution),
- `temperature/models.py` (four cell-temperature models and their dispatcher),
- `power.py` (per-instant power orchestration),
- `simulation/engine.py` (per-step table construction and statistics),
- `weather/interpolation.py` (gap detection and gap filling).

Floating-point arithmetic of the source is modelled over `ℝ` where the code
uses transcendental functions (sin, cos, exp, rpow) and over `ℚ` for the
table/validation layer, where every operation of the code is rational.
Scalar code paths are embedded; the numpy array paths apply the same formulas
element-wise and are not separately modelled.
-/

namespace PVSolarSim

/-! ### Cloud cover module (`atmosphere/cloudcover.py`) -/

/-- Enum `CloudCoverModel` of `cloudcover.py`. -/
inductive CloudCoverModel where
  | campbell_norman
  | simple_linear
  | kasten_czeplak
deriving DecidableEq

/-- Dataclass `CloudAdjustedIrradiance`: ghi/dni/dhi in W/m² plus the cloud
fraction.  The fraction is kept rational (it is derived from the rational
cloud-cover input by at most a division by 100). -/
structure CloudAdjustedIrradiance where
  ghi : ℝ
  dni : ℝ
  dhi : ℝ
  cloud_fraction : ℚ
deriving Inhabited

/-- Helper `_campbell_norman_attenuation`: overcast transmittance
`tau = 0.35 + 0.1 * sin(radians(elev))` with the sine clamped below at `0.01`,
then `1 - cloud_fraction * (1 - tau)`. -/
noncomputable def campbellNormanAttenuation (cloud_fraction solar_elevation : ℝ) : ℝ :=
  let sin_elevation := max (Real.sin (solar_elevation * (Real.pi / 180))) 0.01
  let tau_overcast := 0.35 + 0.1 * sin_elevation
  1 - cloud_fraction * (1 - tau_overcast)

/-- Helper `_simple_linear_attenuation`: `1 - 0.75 * cloud_fraction`. -/
noncomputable def simpleLinearAttenuation (cloud_fraction : ℝ) : ℝ :=
  1 - 0.75 * cloud_fraction

/-- Helper `_kasten_czeplak_attenuation`: `max(1 + b * cf ** a, 0)` with
`a = 0.88`, `b = -0.84`. -/
noncomputable def kastenCzeplakAttenuation (cloud_fraction solar_elevation : ℝ) : ℝ :=
  max (1 + (-0.84) * cloud_fraction ^ (0.88 : ℝ)) 0

/-- Dispatch of the three model branches at the end of
`calculate_cloud_attenuation`. -/
noncomputable def applyCloudModel (m : CloudCoverModel) (cloud_fraction solar_elevation : ℝ) : ℝ :=
  match m with
  | .campbell_norman => campbellNormanAttenuation cloud_fraction solar_elevation
  | .simple_linear => simpleLinearAttenuation cloud_fraction
  | .kasten_czeplak => kastenCzeplakAttenuation cloud_fraction solar_elevation

/-- ASCII lowercasing, modelling Python's `str.lower()` on model names
(structural recursion so that concrete instances evaluate). -/
def lowerString (s : String) : String :=
  String.mk (s.data.map Char.toLower)

/-- String-to-enum conversion `CloudCoverModel(model.lower())` of
`calculate_cloud_attenuation`; `none` models the `ValueError` branch. -/
def parseCloudModel (s : String) : Option CloudCoverModel :=
  if lowerString s = "campbell_norman" then some .campbell_norman
  else if lowerString s = "simple_linear" then some .simple_linear
  else if lowerString s = "kasten_czeplak" then some .kasten_czeplak
  else none

/-- Function `calculate_cloud_attenuation` of `cloudcover.py` for scalar
inputs.  Validation order mirrors the source: negative values, the ambiguous
band strictly between 1 and 2, percentages above 100, then the model name;
values `>= 2` are divided by 100.  Error strings abbreviate the source's
messages (the source interpolates the offending value). -/
noncomputable def calculate_cloud_attenuation (cloud_cover : ℚ) (solar_elevation : ℝ)
    (model : String := "campbell_norman") : Except String ℝ :=
  if cloud_cover < 0 then
    .error "Cloud cover must be 0-100% or 0-1"
  else if 1 < cloud_cover ∧ cloud_cover < 2 then
    .error "Cloud cover values between 1.0 and 2.0 are ambiguous. Use 0-1 for fraction or 0-100 for percentage"
  else if 100 < cloud_cover then
    .error "Cloud cover must be 0-100% or 0-1"
  else
    match parseCloudModel model with
    | none =>
        .error "Invalid cloud cover model. Valid options: campbell_norman, simple_linear, kasten_czeplak"
    | some m =>
        let cloud_fraction : ℚ := if 2 ≤ cloud_cover then cloud_cover / 100 else cloud_cover
        .ok (applyCloudModel m (cloud_fraction : ℝ) solar_elevation)

/-- Function `apply_cloud_cover` of `cloudcover.py` for scalar inputs:
`dni_cloudy = dni * f²`, `dhi_cloudy = dhi + dni * (1 - f²) * 0.5`,
`ghi_cloudy = dni_cloudy * max(cos(radians(90 - elev)), 0) + dhi_cloudy`,
and the reported cloud fraction divides by 100 when the input exceeds 1. -/
noncomputable def apply_cloud_cover (ghi dni dhi : ℝ) (cloud_cover : ℚ)
    (solar_elevation : ℝ) (model : String := "campbell_norman") :
    Except String CloudAdjustedIrradiance := do
  let attenuation ← calculate_cloud_attenuation cloud_cover solar_elevation model
  let dni_cloudy := dni * attenuation ^ 2
  let dhi_cloudy := dhi + dni * (1 - attenuation ^ 2) * 0.5
  let cos_zenith := max (Real.cos ((90 - solar_elevation) * (Real.pi / 180))) 0
  let ghi_cloudy := dni_cloudy * cos_zenith + dhi_cloudy
  let cloud_fraction : ℚ := if 1 < cloud_cover then cloud_cover / 100 else cloud_cover
  return { ghi := ghi_cloudy, dni := dni_cloudy, dhi := dhi_cloudy,
           cloud_fraction := cloud_fraction }

/-- C6: `calculate_cloud_attenuation` errors exactly for a negative cloud
value, a value strictly between 1 and 2, a value above 100, or an
unrecognized model name (whose error lists the valid options); any other
cloud value with a recognized model yields a factor, with values at most 1
taken as a fraction and values from 2 to 100 divided by 100. -/
theorem cloud_attenuation_error_iff (c : ℚ) (elev : ℝ) (name : String) :
    ((∃ e, calculate_cloud_attenuation c elev name = .error e) ↔
      c < 0 ∨ (1 < c ∧ c < 2) ∨ 100 < c ∨ parseCloudModel name = none)
  ∧ (parseCloudModel name = none → ¬(c < 0 ∨ (1 < c ∧ c < 2) ∨ 100 < c) →
      calculate_cloud_attenuation c elev name =
        .error "Invalid cloud cover model. Valid options: campbell_norman, simple_linear, kasten_czeplak")
  ∧ (∀ m, parseCloudModel name = some m → ¬(c < 0 ∨ (1 < c ∧ c < 2) ∨ 100 < c) →
      calculate_cloud_attenuation c elev name =
        .ok (applyCloudModel m (((if 2 ≤ c then c / 100 else c : ℚ) : ℚ) : ℝ) elev)) := by
  unfold calculate_cloud_attenuation
  split_ifs with h1 h2 h3 h4 <;>
    rcases hp : parseCloudModel name with _ | m <;> simp_all

/-- Witness for `cloud_attenuation_error_iff` at cloud cover 50,
elevation 30 and the simple_linear model. -/
theorem cloud_attenuation_error_iff_witness :
    calculate_cloud_attenuation 50 30 "simple_linear" =
      .ok (applyCloudModel .simple_linear
        (((if 2 ≤ (50 : ℚ) then 50 / 100 else 50 : ℚ) : ℚ) : ℝ) 30) :=
  (cloud_attenuation_error_iff 50 30 "simple_linear").2.2 .simple_linear (by decide) (by decide)

/-- C7: the attenuation of zero cloud cover at positive elevation is 1 for
the default campbell_norman model, and the campbell_norman and simple_linear
attenuations are monotonically non-increasing in the cloud fraction on
`[0, 1]`. -/
theorem cloud_attenuation_clear_and_monotone (elev : ℝ) (h : 0 < elev) :
    calculate_cloud_attenuation 0 elev "campbell_norman" = .ok 1
  ∧ (∀ c1 c2 e : ℝ, 0 ≤ c1 → c1 ≤ c2 → c2 ≤ 1 →
      campbellNormanAttenuation c2 e ≤ campbellNormanAttenuation c1 e)
  ∧ (∀ c1 c2 : ℝ, 0 ≤ c1 → c1 ≤ c2 → c2 ≤ 1 →
      simpleLinearAttenuation c2 ≤ simpleLinearAttenuation c1) := by
  refine ⟨?_, ?_, ?_⟩
  · have hp : parseCloudModel "campbell_norman" = some CloudCoverModel.campbell_norman := by decide
    unfold calculate_cloud_attenuation
    rw [if_neg (by norm_num), if_neg (by norm_num), if_neg (by norm_num), hp]
    rw [if_neg (by norm_num)]
    unfold applyCloudModel campbellNormanAttenuation
    norm_num
  · intro c1 c2 e hc1 hc12 hc2
    unfold campbellNormanAttenuation
    have hs1 : max (Real.sin (e * (Real.pi / 180))) 0.01 ≤ 1 :=
      max_le (Real.sin_le_one _) (by norm_num)
    nlinarith [mul_le_mul_of_nonneg_right hc12
      (by nlinarith : (0:ℝ) ≤ 1 - (0.35 + 0.1 * max (Real.sin (e * (Real.pi / 180))) 0.01))]
  · intro c1 c2 hc1 hc12 hc2
    unfold simpleLinearAttenuation
    linarith

/-- Witness for `cloud_attenuation_clear_and_monotone` at elevation 45 and
cloud fractions 0 and 1. -/
theorem cloud_attenuation_clear_and_monotone_witness :
    calculate_cloud_attenuation 0 45 "campbell_norman" = .ok 1
  ∧ campbellNormanAttenuation 1 45 ≤ campbellNormanAttenuation 0 45
  ∧ simpleLinearAttenuation 1 ≤ simpleLinearAttenuation 0 := by
  obtain ⟨h1, h2, h3⟩ := cloud_attenuation_clear_and_monotone 45 (by norm_num)
  exact ⟨h1, h2 0 1 45 (by norm_num) (by norm_num) (by norm_num),
    h3 0 1 (by norm_num) (by norm_num) (by norm_num)⟩

/-- C1: `apply_cloud_cover` returns `dni_cloudy = dni * f²`,
`dhi_cloudy = dhi + dni * (1 - f²) * 0.5` and
`ghi_cloudy = dni_cloudy * max(cos(radians(90 - elev)), 0) + dhi_cloudy`
where `f` is the `calculate_cloud_attenuation` factor, and the input GHI does
not enter any output component. -/
theorem apply_cloud_cover_redistribution (ghi dni dhi : ℝ) (cloud : ℚ) (elev : ℝ)
    (model : String) (f : ℝ)
    (h : calculate_cloud_attenuation cloud elev model = .ok f) :
    apply_cloud_cover ghi dni dhi cloud elev model = .ok
      { ghi := dni * f ^ 2 * max (Real.cos ((90 - elev) * (Real.pi / 180))) 0 +
               (dhi + dni * (1 - f ^ 2) * 0.5),
        dni := dni * f ^ 2,
        dhi := dhi + dni * (1 - f ^ 2) * 0.5,
        cloud_fraction := if 1 < cloud then cloud / 100 else cloud }
  ∧ ∀ ghi2 : ℝ, apply_cloud_cover ghi2 dni dhi cloud elev model =
      apply_cloud_cover ghi dni dhi cloud elev model := by
  constructor
  · unfold apply_cloud_cover
    rw [h]
    rfl
  · intro g2
    unfold apply_cloud_cover
    rw [h]

/-- Witness for `apply_cloud_cover_redistribution` with cloud cover 0,
elevation 0 and the simple_linear model, where the factor is 1. -/
theorem apply_cloud_cover_redistribution_witness :
    calculate_cloud_attenuation 0 0 "simple_linear" = .ok 1 ∧
    apply_cloud_cover 800 700 150 0 0 "simple_linear" = .ok
      { ghi := 700 * 1 ^ 2 * max (Real.cos ((90 - 0) * (Real.pi / 180))) 0 +
               (150 + 700 * (1 - 1 ^ 2) * 0.5),
        dni := 700 * 1 ^ 2,
        dhi := 150 + 700 * (1 - 1 ^ 2) * 0.5,
        cloud_fraction := if 1 < (0 : ℚ) then 0 / 100 else 0 } := by
  have hp : parseCloudModel "simple_linear" = some CloudCoverModel.simple_linear := by decide
  have hcalc : calculate_cloud_attenuation 0 0 "simple_linear" = .ok 1 := by
    unfold calculate_cloud_attenuation
    rw [if_neg (by norm_num), if_neg (by norm_num), if_neg (by norm_num), hp]
    rw [if_neg (by norm_num)]
    unfold applyCloudModel simpleLinearAttenuation
    norm_num
  exact ⟨hcalc, (apply_cloud_cover_redistribution 800 700 150 0 0 "simple_linear" 1 hcalc).1⟩

/-! ### Temperature module (`temperature/models.py`) -/

/-- Enum `TemperatureModel` of `temperature/models.py`. -/
inductive TemperatureModel where
  | faiman
  | sapm
  | pvsyst
  | generic_linear
deriving DecidableEq

/-- Function `faiman_model`: `T_air + POA / (u0 + u1 * wind)`. -/
noncomputable def faiman_model (poa_global temp_air : ℝ) (wind_speed : ℝ := 1)
    (u0 : ℝ := 25) (u1 : ℝ := 6.84) : ℝ :=
  let heat_loss_factor := u0 + u1 * wind_speed
  let temp_rise := poa_global / heat_loss_factor
  temp_air + temp_rise

/-- Function `sapm_model`: `T_mod = POA * exp(a + b * wind) + T_air`, then
`T_cell = T_mod + (POA / irrad_ref) * delta_t`. -/
noncomputable def sapm_model (poa_global temp_air wind_speed : ℝ)
    (a : ℝ := -3.47) (b : ℝ := -0.0594) (delta_t : ℝ := 3)
    (irrad_ref : ℝ := 1000) : ℝ :=
  let temp_module := poa_global * Real.exp (a + b * wind_speed) + temp_air
  let irrad_normalized := poa_global / irrad_ref
  temp_module + irrad_normalized * delta_t

/-- Function `pvsyst_model`:
`T_air + alpha * POA * (1 - eta) / (u_c + u_v * wind)`. -/
noncomputable def pvsyst_model (poa_global temp_air : ℝ) (wind_speed : ℝ := 1)
    (u_c : ℝ := 29) (u_v : ℝ := 0) (module_efficiency : ℝ := 0.1)
    (alpha_absorption : ℝ := 0.9) : ℝ :=
  let heat_loss_factor := u_c + u_v * wind_speed
  let absorbed_heat := alpha_absorption * poa_global * (1 - module_efficiency)
  temp_air + absorbed_heat / heat_loss_factor

/-- Function `generic_linear_model`: same form as pvsyst with free
coefficients and no defaults. -/
noncomputable def generic_linear_model
    (poa_global temp_air wind_speed u_const du_wind module_efficiency absorptance : ℝ) : ℝ :=
  let heat_loss_factor := u_const + du_wind * wind_speed
  let absorbed_heat := absorptance * poa_global * (1 - module_efficiency)
  temp_air + absorbed_heat / heat_loss_factor

/-- Keyword parameters accepted by the four models of
`calculate_cell_temperature` (Python passes them as `**model_params`).
Fields carry the Python defaults; the generic_linear parameters have no
defaults in the source and none here. -/
structure TempModelParams where
  u0 : ℝ := 25
  u1 : ℝ := 6.84
  a : ℝ := -3.47
  b : ℝ := -0.0594
  delta_t : ℝ := 3
  irrad_ref : ℝ := 1000
  u_c : ℝ := 29
  u_v : ℝ := 0
  module_efficiency : ℝ := 0.1
  alpha_absorption : ℝ := 0.9
  u_const : ℝ
  du_wind : ℝ
  gl_efficiency : ℝ
  gl_absorptance : ℝ

/-- Dispatcher `calculate_cell_temperature` of `temperature/models.py`
(string parsing of the model name is modelled separately by
`parseTemperatureModel`). -/
noncomputable def calculate_cell_temperature (poa_global temp_air wind_speed : ℝ)
    (model : TemperatureModel) (p : TempModelParams) : ℝ :=
  match model with
  | .faiman => faiman_model poa_global temp_air wind_speed p.u0 p.u1
  | .sapm => sapm_model poa_global temp_air wind_speed p.a p.b p.delta_t p.irrad_ref
  | .pvsyst => pvsyst_model poa_global temp_air wind_speed p.u_c p.u_v
      p.module_efficiency p.alpha_absorption
  | .generic_linear => generic_linear_model poa_global temp_air wind_speed
      p.u_const p.du_wind p.gl_efficiency p.gl_absorptance

/-- Case-insensitive model-name parsing `TemperatureModel(model.lower())`. -/
def parseTemperatureModel (s : String) : Option TemperatureModel :=
  if lowerString s = "faiman" then some .faiman
  else if lowerString s = "sapm" then some .sapm
  else if lowerString s = "pvsyst" then some .pvsyst
  else if lowerString s = "generic_linear" then some .generic_linear
  else none

/-- Function `calculate_temperature_correction_factor`:
`1 + coeff * (cell_temp - ref)`. -/
noncomputable def calculate_temperature_correction_factor (cell_temperature : ℝ)
    (temp_coefficient : ℝ := -0.004) (temp_ref : ℝ := 25) : ℝ :=
  1 + temp_coefficient * (cell_temperature - temp_ref)

/-- Example parameter set: the defaults of the source plus the
generic_linear example values from the module's docstring (the source has
no defaults for generic_linear). -/
noncomputable def defaultTempParams : TempModelParams :=
  { u_const := 11.04, du_wind := 5.52, gl_efficiency := 0.19, gl_absorptance := 0.88 }

/-- Denominators of the selected model's heat balance are nonzero (in the
floating-point source a zero denominator would produce NaN rather than the
ambient temperature). -/
def heatBalanceDefined (model : TemperatureModel) (p : TempModelParams)
    (wind_speed : ℝ) : Prop :=
  match model with
  | .faiman => p.u0 + p.u1 * wind_speed ≠ 0
  | .sapm => p.irrad_ref ≠ 0
  | .pvsyst => p.u_c + p.u_v * wind_speed ≠ 0
  | .generic_linear => p.u_const + p.du_wind * wind_speed ≠ 0

/-- C2: with zero plane-of-array irradiance, every one of the four
temperature models returns exactly the ambient temperature, for every
ambient temperature, wind speed and parameter set whose heat balance is
defined. -/
theorem cell_temperature_zero_irradiance (temp_air wind_speed : ℝ)
    (model : TemperatureModel) (p : TempModelParams)
    (h : heatBalanceDefined model p wind_speed) :
    calculate_cell_temperature 0 temp_air wind_speed model p = temp_air := by
  cases model <;>
    simp [calculate_cell_temperature, faiman_model, sapm_model, pvsyst_model,
      generic_linear_model]

/-- Witness for `cell_temperature_zero_irradiance`: the faiman model with
default parameters at 25 °C ambient temperature and wind 1 m/s. -/
theorem cell_temperature_zero_irradiance_witness :
    heatBalanceDefined .faiman defaultTempParams 1 ∧
    calculate_cell_temperature 0 25 1 .faiman defaultTempParams = 25 := by
  have h : heatBalanceDefined .faiman defaultTempParams 1 := by
    show (25 : ℝ) + 6.84 * 1 ≠ 0
    norm_num
  exact ⟨h, cell_temperature_zero_irradiance 25 1 .faiman defaultTempParams h⟩

/-! ### Power orchestration (`power.py`)

The external astronomical/irradiance service (solar position, clear-sky
irradiance, plane-of-array transposition) is a collaborator of this module;
it is modelled as a record of opaque function parameters, exactly the
capability interface of the spec. -/

/-- Timestamp with optional timezone data; `tzinfo = none` models a naive
Python datetime. -/
structure Timestamp where
  time : ℤ
  tzinfo : Option ℤ
deriving DecidableEq

/-- Value object `Location` of `core/location.py` (fields used by
`calculate_power`). -/
structure Location where
  latitude : ℝ
  longitude : ℝ
  altitude : ℝ
  timezone : String

/-- Value object `PVSystem` of `core/pvsystem.py` (fields used by
`calculate_power` and the statistics). -/
structure PVSystem where
  panel_area : ℝ
  panel_efficiency : ℝ
  tilt : ℝ
  azimuth : ℝ
  temp_coefficient : ℝ

/-- Output of the external `calculate_solar_position`. -/
structure SolarPosition where
  elevation : ℝ
  azimuth : ℝ
  zenith : ℝ

/-- Dataclass `IrradianceComponents`. -/
structure IrradianceComponents where
  ghi : ℝ
  dni : ℝ
  dhi : ℝ

/-- Output of the external `calculate_poa_irradiance`. -/
structure POAComponents where
  poa_global : ℝ
  poa_direct : ℝ
  poa_diffuse : ℝ
  poa_ground : ℝ

/-- Dataclass `PowerResult` of `power.py`. -/
structure PowerResult where
  power_w : ℝ
  poa_irradiance : ℝ
  poa_direct : ℝ
  poa_diffuse : ℝ
  cell_temperature : ℝ
  ghi : ℝ
  dni : ℝ
  dhi : ℝ
  solar_elevation : ℝ
  solar_azimuth : ℝ
  temperature_factor : ℝ
  power_ac_w : Option ℝ

/-- The three external collaborators consumed by `calculate_power`:
`calculate_solar_position(timestamp, lat, lon, alt)`,
`calculate_clearsky_irradiance(elevation, lat, lon, alt, model)` and
`calculate_poa_irradiance(tilt, azimuth, zenith, sun_azimuth, dni, ghi, dhi,
diffuse_model, albedo)`. -/
structure ExternalEnv where
  solarPosition : Timestamp → ℝ → ℝ → ℝ → SolarPosition
  clearskyIrradiance : ℝ → ℝ → ℝ → ℝ → String → IrradianceComponents
  poaIrradiance : ℝ → ℝ → ℝ → ℝ → ℝ → ℝ → ℝ → String → ℝ → POAComponents

/-- Step 2 of `calculate_power`: caller-supplied ghi/dni/dhi are used
verbatim when all three are present; otherwise clear-sky irradiance is
obtained from the external service and, for positive cloud cover, passed
through `apply_cloud_cover` (with its default campbell_norman model). -/
noncomputable def resolveIrradiance (env : ExternalEnv) (location : Location)
    (solar_pos : SolarPosition) (cloud_cover : ℚ) (ghi dni dhi : Option ℝ)
    (clearsky_model : String) : Except String IrradianceComponents :=
  match ghi, dni, dhi with
  | some g, some dn, some dh => Except.ok ⟨g, dn, dh⟩
  | _, _, _ =>
    let cs := env.clearskyIrradiance solar_pos.elevation location.latitude
      location.longitude location.altitude clearsky_model
    if 0 < cloud_cover then do
      let adjusted ← apply_cloud_cover cs.ghi cs.dni cs.dhi cloud_cover
        solar_pos.elevation
      Except.ok ⟨adjusted.ghi, adjusted.dni, adjusted.dhi⟩
    else Except.ok cs

/-- String-model resolution of `calculate_cell_temperature`: unknown names
raise a ValueError. -/
def requireTemperatureModel (s : String) : Except String TemperatureModel :=
  match parseTemperatureModel s with
  | some m => Except.ok m
  | none => Except.error "Invalid temperature model"

/-- Function `calculate_power` of `power.py`.  Steps mirror the source:
timezone validation, solar position, the zero-power short circuit for
elevation at or below 0, irradiance resolution (caller-supplied components
verbatim, otherwise clear sky with optional cloud adjustment), POA
transposition, cell temperature, temperature correction, DC power from
area/efficiency/POA and the derate factors, and optional AC power.
The source would raise a TypeError for `generic_linear` selected without
parameters; here the dispatcher receives `defaultTempParams`. -/
noncomputable def calculate_power (env : ExternalEnv) (location : Location)
    (system : PVSystem) (timestamp : Timestamp)
    (ambient_temp : ℝ := 25) (wind_speed : ℝ := 1) (cloud_cover : ℚ := 0)
    (ghi : Option ℝ := none) (dni : Option ℝ := none) (dhi : Option ℝ := none)
    (clearsky_model : String := "ineichen") (diffuse_model : String := "perez")
    (temperature_model : String := "faiman") (albedo : ℝ := 0.2)
    (soiling_factor : ℝ := 1) (degradation_factor : ℝ := 1)
    (inverter_efficiency : Option ℝ := none) : Except String PowerResult :=
  if timestamp.tzinfo = none then
    .error "Timestamp must be timezone-aware"
  else
    let solar_pos := env.solarPosition timestamp location.latitude location.longitude
      location.altitude
    if solar_pos.elevation ≤ 0 then
      .ok { power_w := 0, poa_irradiance := 0, poa_direct := 0, poa_diffuse := 0,
            cell_temperature := ambient_temp, ghi := 0, dni := 0, dhi := 0,
            solar_elevation := solar_pos.elevation, solar_azimuth := solar_pos.azimuth,
            temperature_factor := 1,
            power_ac_w := if inverter_efficiency.isSome then some 0 else none }
    else do
      let irradiance ← resolveIrradiance env location solar_pos cloud_cover ghi dni dhi
        clearsky_model
      let poa := env.poaIrradiance system.tilt system.azimuth solar_pos.zenith
        solar_pos.azimuth irradiance.dni irradiance.ghi irradiance.dhi diffuse_model albedo
      let tmodel ← requireTemperatureModel temperature_model
      let cell_temp := calculate_cell_temperature poa.poa_global ambient_temp wind_speed
        tmodel defaultTempParams
      let temp_factor := calculate_temperature_correction_factor cell_temp
        system.temp_coefficient
      let power_dc := system.panel_area * system.panel_efficiency * poa.poa_global *
        temp_factor * soiling_factor * degradation_factor
      let power_ac := inverter_efficiency.map (fun eff => power_dc * eff)
      .ok { power_w := power_dc, poa_irradiance := poa.poa_global,
            poa_direct := poa.poa_direct, poa_diffuse := poa.poa_diffuse,
            cell_temperature := cell_temp, ghi := irradiance.ghi,
            dni := irradiance.dni, dhi := irradiance.dhi,
            solar_elevation := solar_pos.elevation, solar_azimuth := solar_pos.azimuth,
            temperature_factor := temp_factor, power_ac_w := power_ac }

/-- C4: for a timezone-aware timestamp whose solar elevation is at or below
zero, `calculate_power` short-circuits to the zero-power result: zero power
and irradiance components, cell temperature equal to the ambient
temperature, temperature factor 1, and AC power 0 exactly when an inverter
efficiency was supplied.  The environment `env` is universally quantified,
so the clear-sky, POA and temperature models cannot influence the result. -/
theorem calculate_power_night_short_circuit (env : ExternalEnv) (location : Location)
    (system : PVSystem) (timestamp : Timestamp)
    (ambient_temp wind_speed : ℝ) (cloud_cover : ℚ) (ghi dni dhi : Option ℝ)
    (clearsky_model diffuse_model temperature_model : String)
    (albedo soiling_factor degradation_factor : ℝ) (inverter_efficiency : Option ℝ)
    (htz : timestamp.tzinfo ≠ none)
    (hel : (env.solarPosition timestamp location.latitude location.longitude
      location.altitude).elevation ≤ 0) :
    calculate_power env location system timestamp ambient_temp wind_speed cloud_cover
      ghi dni dhi clearsky_model diffuse_model temperature_model albedo
      soiling_factor degradation_factor inverter_efficiency =
    .ok { power_w := 0, poa_irradiance := 0, poa_direct := 0, poa_diffuse := 0,
          cell_temperature := ambient_temp, ghi := 0, dni := 0, dhi := 0,
          solar_elevation := (env.solarPosition timestamp location.latitude
            location.longitude location.altitude).elevation,
          solar_azimuth := (env.solarPosition timestamp location.latitude
            location.longitude location.altitude).azimuth,
          temperature_factor := 1,
          power_ac_w := if inverter_efficiency.isSome then some 0 else none } := by
  unfold calculate_power
  rw [if_neg htz, if_pos hel]

/-- Night environment used only to witness the short-circuit theorem. -/
noncomputable def nightEnvC4 : ExternalEnv :=
  { solarPosition := fun _ _ _ _ => ⟨-5, 180, 95⟩,
    clearskyIrradiance := fun _ _ _ _ _ => ⟨0, 0, 0⟩,
    poaIrradiance := fun _ _ _ _ _ _ _ _ _ => ⟨0, 0, 0, 0⟩ }

/-- Witness for `calculate_power_night_short_circuit` at a concrete aware
timestamp, with an inverter efficiency supplied. -/
theorem calculate_power_night_short_circuit_witness :
    calculate_power nightEnvC4 ⟨49.8, 15.5, 300, "UTC"⟩ ⟨20, 0.2, 35, 180, -0.004⟩
      ⟨0, some 0⟩ 25 1 0 none none none "ineichen" "perez" "faiman" 0.2 1 1 (some 0.95) =
    .ok { power_w := 0, poa_irradiance := 0, poa_direct := 0, poa_diffuse := 0,
          cell_temperature := 25, ghi := 0, dni := 0, dhi := 0,
          solar_elevation := (nightEnvC4.solarPosition ⟨0, some 0⟩ 49.8 15.5 300).elevation,
          solar_azimuth := (nightEnvC4.solarPosition ⟨0, some 0⟩ 49.8 15.5 300).azimuth,
          temperature_factor := 1,
          power_ac_w := if (some (0.95 : ℝ)).isSome then some 0 else none } :=
  calculate_power_night_short_circuit nightEnvC4 ⟨49.8, 15.5, 300, "UTC"⟩
    ⟨20, 0.2, 35, 180, -0.004⟩ ⟨0, some 0⟩ 25 1 0 none none none
    "ineichen" "perez" "faiman" 0.2 1 1 (some 0.95) (by simp)
    (by show (-5 : ℝ) ≤ 0; norm_num)

/-! ### Simulation engine (`simulation/engine.py`) -/

/-- One row of the per-step table built by `simulate_annual`.  Every column
is a plain field, so in particular `power_ac_w` is present in every row (and
therefore in the CSV export, which writes the table as-is). -/
structure StepRow where
  timestamp : Timestamp
  power_w : ℝ
  power_ac_w : ℝ
  poa_irradiance : ℝ
  cell_temperature : ℝ
  ghi : ℝ
  dni : ℝ
  dhi : ℝ
  solar_elevation : ℝ

/-- The dictionary appended per timestep by `simulate_annual`:
`power_ac_w` is `result.power_ac_w` when that is not None, else
`result.power_w`. -/
noncomputable def mkStepRow (t : Timestamp) (r : PowerResult) : StepRow :=
  { timestamp := t, power_w := r.power_w,
    power_ac_w := r.power_ac_w.getD r.power_w,
    poa_irradiance := r.poa_irradiance, cell_temperature := r.cell_temperature,
    ghi := r.ghi, dni := r.dni, dhi := r.dhi,
    solar_elevation := r.solar_elevation }

/-- The per-timestamp loop of `simulate_annual` on the clear-sky path (no
weather table): each timestamp is passed to `calculate_power` with the
constant ambient conditions, and the results accumulate in order into the
per-step table. -/
noncomputable def simulateRows (env : ExternalEnv) (location : Location)
    (system : PVSystem) (ambient_temp wind_speed : ℝ) (cloud_cover : ℚ)
    (soiling_factor degradation_factor : ℝ) (inverter_efficiency : Option ℝ) :
    List Timestamp → Except String (List StepRow)
  | [] => .ok []
  | t :: ts => do
    let result ← calculate_power env location system t ambient_temp wind_speed
      cloud_cover none none none "ineichen" "perez" "faiman" 0.2
      soiling_factor degradation_factor inverter_efficiency
    let rest ← simulateRows env location system ambient_temp wind_speed cloud_cover
      soiling_factor degradation_factor inverter_efficiency ts
    .ok (mkStepRow t result :: rest)

/-- Helper for C10: with no inverter efficiency, `calculate_power` reports
no AC power on either branch. -/
theorem calculate_power_no_inverter_ac (env : ExternalEnv) (location : Location)
    (system : PVSystem) (timestamp : Timestamp)
    (ambient_temp wind_speed : ℝ) (cloud_cover : ℚ) (ghi dni dhi : Option ℝ)
    (clearsky_model diffuse_model temperature_model : String)
    (albedo soiling_factor degradation_factor : ℝ) (res : PowerResult)
    (h : calculate_power env location system timestamp ambient_temp wind_speed
      cloud_cover ghi dni dhi clearsky_model diffuse_model temperature_model albedo
      soiling_factor degradation_factor none = .ok res) :
    res.power_ac_w = none := by
  unfold calculate_power at h
  split at h
  · exact absurd h (by simp)
  · split at h
    · rename_i habs
      exact absurd habs (by simp)
    · dsimp only [] at h
      split at h
      · injection h with h
        subst h
        rfl
      · simp only [bind, Except.bind] at h
        split at h
        · exact absurd h (by simp)
        · split at h
          · exact absurd h (by simp)
          · injection h with h
            subst h
            simp

/-- C10: on the clear-sky path with no inverter efficiency supplied, every
row of the per-step table built by the `simulate_annual` loop has its
`power_ac_w` value equal to its `power_w` value (the column is a mandatory
field of `StepRow`, hence always present, also in the CSV export). -/
theorem simulate_rows_ac_defaults_to_dc (env : ExternalEnv) (location : Location)
    (system : PVSystem) (ambient_temp wind_speed : ℝ) (cloud_cover : ℚ)
    (soiling_factor degradation_factor : ℝ) (times : List Timestamp)
    (rows : List StepRow)
    (h : simulateRows env location system ambient_temp wind_speed cloud_cover
      soiling_factor degradation_factor none times = .ok rows) :
    ∀ r ∈ rows, r.power_ac_w = r.power_w := by
  induction times generalizing rows with
  | nil =>
    injection h with h
    subst h
    intro r hr
    exact absurd hr (by simp)
  | cons t ts ih =>
    unfold simulateRows at h
    simp only [bind, Except.bind] at h
    split at h
    · exact absurd h (by simp)
    · rename_i result hres
      split at h
      · exact absurd h (by simp)
      · rename_i rest hrest
        injection h with h
        subst h
        intro r hr
        rcases List.mem_cons.mp hr with hr | hr
        · subst hr
          show (mkStepRow t result).power_ac_w = (mkStepRow t result).power_w
          have hac : result.power_ac_w = none :=
            calculate_power_no_inverter_ac env location system t ambient_temp
              wind_speed cloud_cover none none none "ineichen" "perez" "faiman" 0.2
              soiling_factor degradation_factor result hres
          simp [mkStepRow, hac]
        · exact ih rest hrest r hr

/-- Night environment used only to witness the per-step AC-default theorem. -/
noncomputable def nightEnvC10 : ExternalEnv :=
  { solarPosition := fun _ _ _ _ => ⟨-1, 0, 91⟩,
    clearskyIrradiance := fun _ _ _ _ _ => ⟨0, 0, 0⟩,
    poaIrradiance := fun _ _ _ _ _ _ _ _ _ => ⟨0, 0, 0, 0⟩ }

/-- Witness for `simulate_rows_ac_defaults_to_dc`: a one-step run with no
inverter efficiency produces a row whose `power_ac_w` equals its `power_w`. -/
theorem simulate_rows_ac_defaults_to_dc_witness :
    simulateRows nightEnvC10 ⟨49.8, 15.5, 300, "UTC"⟩ ⟨20, 0.2, 35, 180, -0.004⟩
      25 1 0 1 1 none [⟨0, some 0⟩] =
      .ok [{ timestamp := ⟨0, some 0⟩, power_w := 0, power_ac_w := 0,
             poa_irradiance := 0, cell_temperature := 25, ghi := 0, dni := 0,
             dhi := 0, solar_elevation := -1 }]
  ∧ ({ timestamp := ⟨0, some 0⟩, power_w := 0, power_ac_w := 0,
       poa_irradiance := 0, cell_temperature := 25, ghi := 0, dni := 0,
       dhi := 0, solar_elevation := -1 } : StepRow).power_ac_w =
    ({ timestamp := ⟨0, some 0⟩, power_w := 0, power_ac_w := 0,
       poa_irradiance := 0, cell_temperature := 25, ghi := 0, dni := 0,
       dhi := 0, solar_elevation := -1 } : StepRow).power_w := by
  have hcp := calculate_power_night_short_circuit nightEnvC10 ⟨49.8, 15.5, 300, "UTC"⟩
    ⟨20, 0.2, 35, 180, -0.004⟩ ⟨0, some 0⟩ 25 1 0 none none none
    "ineichen" "perez" "faiman" 0.2 1 1 none (by simp)
    (by show (-1 : ℝ) ≤ 0; norm_num)
  have hrow : simulateRows nightEnvC10 ⟨49.8, 15.5, 300, "UTC"⟩ ⟨20, 0.2, 35, 180, -0.004⟩
      25 1 0 1 1 none [⟨0, some 0⟩] =
      .ok [{ timestamp := ⟨0, some 0⟩, power_w := 0, power_ac_w := 0,
             poa_irradiance := 0, cell_temperature := 25, ghi := 0, dni := 0,
             dhi := 0, solar_elevation := -1 }] := by
    unfold simulateRows
    rw [hcp]
    simp [simulateRows, mkStepRow, nightEnvC10, bind, Except.bind]
  refine ⟨hrow, ?_⟩
  exact simulate_rows_ac_defaults_to_dc nightEnvC10 ⟨49.8, 15.5, 300, "UTC"⟩
    ⟨20, 0.2, 35, 180, -0.004⟩ 25 1 0 1 1 [⟨0, some 0⟩] _ hrow _ (by simp)

/-! ### Statistics aggregation (`_calculate_statistics` of `simulation/engine.py`) -/

/-- Dataclass `AnnualStatistics` (the calendar aggregates
`monthly_energy_kwh`/`daily_energy_kwh`, period-keyed sums of the per-step
energy, are outside the claims and not modelled). -/
structure AnnualStatistics where
  total_energy_kwh : ℝ
  capacity_factor : ℝ
  peak_power_w : ℝ
  average_power_w : ℝ
  total_daylight_hours : ℝ
  performance_ratio : ℝ

/-- The `ideal_energy_kwh` intermediate of `_calculate_statistics`:
POA energy referenced through panel area and efficiency. -/
noncomputable def idealEnergyKwh (df : List StepRow) (system : PVSystem)
    (interval_minutes : ℚ) : ℝ :=
  ((df.map (fun r => r.poa_irradiance * ((interval_minutes : ℝ) / 60))).sum) *
    system.panel_area * system.panel_efficiency / 1000

/-- Function `_calculate_statistics` of `simulation/engine.py`: pure
reduction over the completed per-step table.  `peak_power_w` is the fold of
`max` seeded with 0 (pandas `max` of the never-empty annual table). -/
noncomputable def calculate_statistics (df : List StepRow) (system : PVSystem)
    (interval_minutes : ℚ) : AnnualStatistics :=
  let interval_hours : ℝ := (interval_minutes : ℝ) / 60
  let energy_kwh_per_step := df.map (fun r => r.power_w * interval_hours / 1000)
  let total_energy_kwh := energy_kwh_per_step.sum
  let peak_power_w := (df.map (fun r => r.power_w)).foldr max 0
  let daylight := df.filter (fun r => decide (0 < r.solar_elevation))
  let total_daylight_hours := (daylight.length : ℝ) * interval_hours
  let average_power_w :=
    if daylight.isEmpty then 0
    else (daylight.map (fun r => r.power_w)).sum / (daylight.length : ℝ)
  let hours_in_year : ℝ := 8760
  let rated_power_w := system.panel_area * system.panel_efficiency * 1000
  let capacity_factor := total_energy_kwh / (rated_power_w * hours_in_year / 1000)
  let ideal_energy_kwh := idealEnergyKwh df system interval_minutes
  let performance_ratio :=
    if 0 < ideal_energy_kwh then total_energy_kwh / ideal_energy_kwh else 0
  { total_energy_kwh := total_energy_kwh, capacity_factor := capacity_factor,
    peak_power_w := peak_power_w, average_power_w := average_power_w,
    total_daylight_hours := total_daylight_hours,
    performance_ratio := performance_ratio }

/-- C3: over any completed per-step table with nonnegative POA values and a
positive interval, the statistics satisfy the spec formulas: total energy is
the sum of `power_w * interval_hours / 1000`, the capacity factor is total
energy over rated kW times 8760, the performance ratio is total energy over
the POA-referenced ideal energy with 0 when the ideal energy is 0, and the
average power is the mean of `power_w` over rows with positive solar
elevation, 0 when no such rows exist. -/
theorem statistics_spec_formulas (df : List StepRow) (system : PVSystem)
    (interval_minutes : ℚ)
    (hpoa : ∀ r ∈ df, 0 ≤ r.poa_irradiance) (hm : 0 < interval_minutes)
    (ha : 0 < system.panel_area) (he : 0 < system.panel_efficiency) :
    (calculate_statistics df system interval_minutes).total_energy_kwh =
      (df.map (fun r => r.power_w * ((interval_minutes : ℝ) / 60) / 1000)).sum
  ∧ (calculate_statistics df system interval_minutes).capacity_factor =
      (calculate_statistics df system interval_minutes).total_energy_kwh /
        ((system.panel_area * system.panel_efficiency) * 8760)
  ∧ (idealEnergyKwh df system interval_minutes = 0 →
      (calculate_statistics df system interval_minutes).performance_ratio = 0)
  ∧ (idealEnergyKwh df system interval_minutes ≠ 0 →
      (calculate_statistics df system interval_minutes).performance_ratio =
        (calculate_statistics df system interval_minutes).total_energy_kwh /
          idealEnergyKwh df system interval_minutes)
  ∧ (df.filter (fun r => decide (0 < r.solar_elevation)) = [] →
      (calculate_statistics df system interval_minutes).average_power_w = 0)
  ∧ (df.filter (fun r => decide (0 < r.solar_elevation)) ≠ [] →
      (calculate_statistics df system interval_minutes).average_power_w =
        ((df.filter (fun r => decide (0 < r.solar_elevation))).map
            (fun r => r.power_w)).sum /
          ((df.filter (fun r => decide (0 < r.solar_elevation))).length : ℝ)) := by
  have hideal0 : 0 ≤ idealEnergyKwh df system interval_minutes := by
    unfold idealEnergyKwh
    have hsum : 0 ≤ (df.map (fun r => r.poa_irradiance * ((interval_minutes : ℝ) / 60))).sum := by
      apply List.sum_nonneg
      intro x hx
      obtain ⟨r, hr, rfl⟩ := List.mem_map.mp hx
      have hq : (0 : ℝ) ≤ (interval_minutes : ℝ) / 60 := by
        apply div_nonneg _ (by norm_num)
        exact_mod_cast hm.le
      exact mul_nonneg (hpoa r hr) hq
    positivity
  refine ⟨rfl, ?_, ?_, ?_, ?_, ?_⟩
  · show _ / (system.panel_area * system.panel_efficiency * 1000 * 8760 / 1000) = _
    congr 1
    ring
  · intro h
    show (if 0 < idealEnergyKwh df system interval_minutes then _ else (0:ℝ)) = 0
    rw [h]
    simp
  · intro h
    show (if 0 < idealEnergyKwh df system interval_minutes then
      (calculate_statistics df system interval_minutes).total_energy_kwh /
        idealEnergyKwh df system interval_minutes else (0:ℝ)) = _
    rw [if_pos (lt_of_le_of_ne hideal0 (Ne.symm h))]
  · intro h
    show (if (df.filter (fun r => decide (0 < r.solar_elevation))).isEmpty then (0:ℝ)
      else _) = 0
    rw [h]
    simp
  · intro h
    show (if (df.filter (fun r => decide (0 < r.solar_elevation))).isEmpty then (0:ℝ)
      else ((df.filter (fun r => decide (0 < r.solar_elevation))).map
        (fun r => r.power_w)).sum /
          ((df.filter (fun r => decide (0 < r.solar_elevation))).length : ℝ)) = _
    rw [if_neg (by simpa using h)]

/-- Two-row table used only to witness the statistics theorem: one daylight
row and one night row. -/
noncomputable def statRowsW : List StepRow :=
  [{ timestamp := ⟨0, some 0⟩, power_w := 100, power_ac_w := 100,
     poa_irradiance := 500, cell_temperature := 30, ghi := 400, dni := 600,
     dhi := 100, solar_elevation := 45 },
   { timestamp := ⟨1, some 0⟩, power_w := 0, power_ac_w := 0,
     poa_irradiance := 0, cell_temperature := 25, ghi := 0, dni := 0,
     dhi := 0, solar_elevation := -10 }]

/-- System used only to witness the statistics theorem. -/
noncomputable def statSysW : PVSystem := ⟨2, 0.5, 35, 180, -0.004⟩

/-- Witness for `statistics_spec_formulas` on a concrete two-row table at a
60-minute interval. -/
theorem statistics_spec_formulas_witness :
    (calculate_statistics statRowsW statSysW 60).capacity_factor =
      (calculate_statistics statRowsW statSysW 60).total_energy_kwh /
        ((statSysW.panel_area * statSysW.panel_efficiency) * 8760)
  ∧ (calculate_statistics statRowsW statSysW 60).performance_ratio =
      (calculate_statistics statRowsW statSysW 60).total_energy_kwh /
        idealEnergyKwh statRowsW statSysW 60
  ∧ (calculate_statistics statRowsW statSysW 60).average_power_w =
      ((statRowsW.filter (fun r => decide (0 < r.solar_elevation))).map
          (fun r => r.power_w)).sum /
        ((statRowsW.filter (fun r => decide (0 < r.solar_elevation))).length : ℝ) := by
  obtain ⟨h1, h2, h3, h4, h5, h6⟩ := statistics_spec_formulas statRowsW statSysW 60
    (by
      intro r hr
      simp only [statRowsW, List.mem_cons, List.not_mem_nil, or_false] at hr
      rcases hr with rfl | rfl <;> norm_num)
    (by norm_num) (by norm_num [statSysW]) (by norm_num [statSysW])
  exact ⟨h2, h4 (by norm_num [idealEnergyKwh, statRowsW, statSysW]),
    h6 (by norm_num [statRowsW, List.filter])⟩

/-! ### Weather interpolation (`weather/interpolation.py`)

A weather table is modelled as a list of (timestamp, optional value) pairs:
one column suffices because every operation of the module acts on each
column independently.  Timestamps are integers (multiples of some base
unit); `none` is the missing marker (NaN).  The pandas calls are embedded by
their documented semantics: `interpolate(method='linear', limit,
limit_direction='both')` fills a missing position from the surrounding valid
values (clamping beyond the first/last valid value, as `np.interp` does)
whenever the position is within `limit` of a preceding valid value or of a
succeeding valid value; `ffill(limit)`/`bfill(limit)` propagate the
neighbouring valid value up to `limit` positions. -/

deriving instance DecidableEq for Except

/-- Model of `pd.date_range(start=lo, end=hi, freq=d)` for `lo ≤ hi` and
`d > 0`. -/
def fullRange (lo hi d : ℤ) : List ℤ :=
  (List.range (((hi - lo) / d).toNat + 1)).map (fun (i : ℕ) => lo + d * (i : ℤ))

/-- Model of `data.reindex(full_range)`: the stored value where the timestamp is
present, the missing marker otherwise. -/
def reindexVals (rows : List (ℤ × Option ℚ)) (full : List ℤ) : List (Option ℚ) :=
  full.map (fun t => (rows.lookup t).getD none)

/-- Nearest valid (position, value) strictly before position `i`. -/
def prevValid (vals : List (Option ℚ)) (i : ℕ) : Option (ℕ × ℚ) :=
  ((List.range i).filterMap (fun j => (vals.getD j none).map (fun v => (j, v)))).getLast?

/-- Nearest valid (position, value) strictly after position `i`. -/
def nextValid (vals : List (Option ℚ)) (i : ℕ) : Option (ℕ × ℚ) :=
  ((List.range vals.length).filter (fun j => decide (i < j))).findSome?
    (fun j => (vals.getD j none).map (fun v => (j, v)))

/-- Value `np.interp` assigns at a missing position: linear between the
surrounding valid points, clamped to the edge value outside them, undefined
when no valid point exists. -/
def interpValue (prev next : Option (ℕ × ℚ)) (i : ℕ) : Option ℚ :=
  match prev, next with
  | some (p, vp), some (n, vn) =>
      some (vp + (vn - vp) * (((i : ℚ) - (p : ℚ)) / ((n : ℚ) - (p : ℚ))))
  | some (_, vp), none => some vp
  | none, some (_, vn) => some vn
  | none, none => none

/-- The `limit`/`limit_direction='both'` mask of pandas `interpolate`: a
missing position is filled iff it lies within `limit` of a preceding valid
value or within `limit` of a succeeding valid value (always, when no limit
is given). -/
def withinLimit (limit : Option ℕ) (prev next : Option (ℕ × ℚ)) (i : ℕ) : Bool :=
  match limit with
  | none => true
  | some m =>
    (match prev with | some (p, _) => decide (i - p ≤ m) | none => false) ||
    (match next with | some (n, _) => decide (n - i ≤ m) | none => false)

/-- One output position of `Series.interpolate(method='linear', limit,
limit_direction='both')`. -/
def interpAt (vals : List (Option ℚ)) (limit : Option ℕ) (i : ℕ) : Option ℚ :=
  match vals.getD i none with
  | some v => some v
  | none =>
    if withinLimit limit (prevValid vals i) (nextValid vals i) i then
      interpValue (prevValid vals i) (nextValid vals i) i
    else none

/-- Column-level body of `interpolate_weather_data` with `method='linear'`
and the default `limit_direction='both'`. -/
def interpolate_series (vals : List (Option ℚ)) (limit : Option ℕ) : List (Option ℚ) :=
  (List.range vals.length).map (interpAt vals limit)

/-- One output position of `Series.ffill(limit)`. -/
def ffillAt (vals : List (Option ℚ)) (limit : Option ℕ) (i : ℕ) : Option ℚ :=
  match vals.getD i none with
  | some v => some v
  | none =>
    match prevValid vals i, limit with
    | some (_, vp), none => some vp
    | some (p, vp), some m => if i - p ≤ m then some vp else none
    | none, _ => none

/-- One output position of `Series.bfill(limit)`. -/
def bfillAt (vals : List (Option ℚ)) (limit : Option ℕ) (i : ℕ) : Option ℚ :=
  match vals.getD i none with
  | some v => some v
  | none =>
    match nextValid vals i, limit with
    | some (_, vn), none => some vn
    | some (n, vn), some m => if n - i ≤ m then some vn else none
    | none, _ => none

/-- Column-level body of `forward_fill`. -/
def ffill_series (vals : List (Option ℚ)) (limit : Option ℕ) : List (Option ℚ) :=
  (List.range vals.length).map (ffillAt vals limit)

/-- Column-level body of `backward_fill`. -/
def bfill_series (vals : List (Option ℚ)) (limit : Option ℕ) : List (Option ℚ) :=
  (List.range vals.length).map (bfillAt vals limit)

/-- Function `fill_gaps` of `weather/interpolation.py` with an explicit
expected frequency: reindex to the complete range between the index minimum
and maximum, then fill by the requested method with
`limit = max_gap_size`. -/
def fill_gaps (rows : List (ℤ × Option ℚ)) (method : String := "linear")
    (max_gap_size : Option ℕ := none) (expected_freq : ℤ := 1) :
    Except String (List (ℤ × Option ℚ)) :=
  let index := rows.map Prod.fst
  match index.min?, index.max? with
  | some lo, some hi =>
    let full := fullRange lo hi expected_freq
    let vals := reindexVals rows full
    let newVals : Except String (List (Option ℚ)) :=
      if method = "linear" then .ok (interpolate_series vals max_gap_size)
      else if method = "forward" then .ok (ffill_series vals max_gap_size)
      else if method = "backward" then .ok (bfill_series vals max_gap_size)
      else if method = "both" then
        .ok (bfill_series (ffill_series vals max_gap_size) max_gap_size)
      else .error "Unknown method. Use linear, forward, backward, or both."
    match newVals with
    | .ok nv => .ok (full.zip nv)
    | .error e => .error e
  | _, _ => .error "empty data"

/-- Record produced by `detect_gaps` for one contiguous run of missing
timestamps. -/
structure Gap where
  gap_start : ℤ
  gap_end : ℤ
  gap_duration : ℤ
  missing_points : ℤ
deriving DecidableEq

/-- The grouping loop of `detect_gaps`: missing timestamps exactly one
expected interval after the current gap end extend the gap; any other
missing timestamp closes the gap and starts a new one. -/
def groupGapsAux (d : ℤ) : ℤ → ℤ → List ℤ → List Gap
  | gs, ge, [] => [⟨gs, ge, ge - gs + d, (ge - gs) / d + 1⟩]
  | gs, ge, t :: ts =>
    if t = ge + d then groupGapsAux d gs t ts
    else ⟨gs, ge, ge - gs + d, (ge - gs) / d + 1⟩ :: groupGapsAux d t t ts

/-- Grouping of the ordered missing timestamps into `Gap` records. -/
def groupGaps (missing : List ℤ) (d : ℤ) : List Gap :=
  match missing with
  | [] => []
  | t :: ts => groupGapsAux d t t ts

/-- The expected timestamps absent from the index (`full_range.difference
(data.index)` of `detect_gaps`, in ascending order). -/
def missingTimes (rows : List (ℤ × Option ℚ)) (d : ℤ) : List ℤ :=
  let index := rows.map Prod.fst
  match index.min?, index.max? with
  | some lo, some hi => (fullRange lo hi d).filter (fun t => decide (t ∉ index))
  | _, _ => []

/-- Function `detect_gaps` of `weather/interpolation.py` with an explicit
expected frequency. -/
def detect_gaps (rows : List (ℤ × Option ℚ)) (d : ℤ) : List Gap :=
  groupGaps (missingTimes rows d) d

/-- Unfolding of `fill_gaps` with method linear once the index extrema are
known. -/
theorem fill_gaps_linear_eq (rows : List (ℤ × Option ℚ)) (m : Option ℕ) (d lo hi : ℤ)
    (hmin : (rows.map Prod.fst).min? = some lo)
    (hmax : (rows.map Prod.fst).max? = some hi) :
    fill_gaps rows "linear" m d =
      .ok ((fullRange lo hi d).zip
        (interpolate_series (reindexVals rows (fullRange lo hi d)) m)) := by
  unfold fill_gaps
  dsimp only []
  rw [hmin, hmax]
  rfl

/-- C8: when the missing expected timestamps form one run of three
consecutive instants, `detect_gaps` returns a single Gap with
`missing_points = 3`; a pair of consecutive missing timestamps is likewise
merged into one Gap, while a non-consecutive pair yields two Gap records. -/
theorem detect_gaps_merges_consecutive (rows : List (ℤ × Option ℚ)) (d a : ℤ)
    (hd : 0 < d) (h3 : missingTimes rows d = [a, a + d, a + 2 * d]) :
    detect_gaps rows d = [⟨a, a + 2 * d, 3 * d, 3⟩]
  ∧ (∀ rows2 : List (ℤ × Option ℚ), ∀ b : ℤ,
      missingTimes rows2 d = [b, b + d] → detect_gaps rows2 d = [⟨b, b + d, 2 * d, 2⟩])
  ∧ (∀ rows2 : List (ℤ × Option ℚ), ∀ b c : ℤ,
      missingTimes rows2 d = [b, c] → c ≠ b + d →
      detect_gaps rows2 d = [⟨b, b, d, 1⟩, ⟨c, c, d, 1⟩]) := by
  have hdiv1 : ∀ x : ℤ, (x - x) / d + 1 = 1 := by
    intro x
    simp
  refine ⟨?_, ?_, ?_⟩
  · unfold detect_gaps
    rw [h3]
    show groupGapsAux d a a [a + d, a + 2 * d] = _
    rw [groupGapsAux, if_pos rfl, groupGapsAux,
      if_pos (by ring : a + 2 * d = a + d + d), groupGapsAux]
    have h1 : a + 2 * d - a + d = 3 * d := by ring
    have h2 : (a + 2 * d - a) / d + 1 = 3 := by
      rw [show a + 2 * d - a = 2 * d by ring, Int.mul_ediv_cancel 2 hd.ne']
      norm_num
    rw [h1, h2]
  · intro rows2 b hmiss
    unfold detect_gaps
    rw [hmiss]
    show groupGapsAux d b b [b + d] = _
    rw [groupGapsAux, if_pos rfl, groupGapsAux]
    have h1 : b + d - b + d = 2 * d := by ring
    have h2 : (b + d - b) / d + 1 = 2 := by
      rw [show b + d - b = 1 * d by ring, Int.mul_ediv_cancel 1 hd.ne']
      norm_num
    rw [h1, h2]
  · intro rows2 b c hmiss hnc
    unfold detect_gaps
    rw [hmiss]
    show groupGapsAux d b b [c] = _
    rw [groupGapsAux, if_neg hnc, groupGapsAux]
    rw [show b - b + d = d by ring, show c - c + d = d by ring, hdiv1 b, hdiv1 c]

/-- Witness for `detect_gaps_merges_consecutive`: an hourly table whose
rows at 0 and 4 leave timestamps 1, 2, 3 missing. -/
theorem detect_gaps_merges_consecutive_witness :
    missingTimes [((0 : ℤ), some (1 : ℚ)), (4, some 2)] 1 = [1, 1 + 1, 1 + 2 * 1]
  ∧ detect_gaps [((0 : ℤ), some (1 : ℚ)), (4, some 2)] 1 = [⟨1, 1 + 2 * 1, 3 * 1, 3⟩] :=
  ⟨by decide,
    (detect_gaps_merges_consecutive [((0 : ℤ), some (1 : ℚ)), (4, some 2)] 1 1
      (by decide) (by decide)).1⟩

/-- C5 (evidence of the code bug): with `max_gap_size = 1`, a gap of two
missing hourly timestamps — longer than the limit — is nevertheless filled
completely: pandas `interpolate(limit=m, limit_direction='both')` fills any
missing position within `m` of either end of the gap, so rows 1 and 2
receive interpolated values 200 and 300 instead of keeping the missing
marker. -/
theorem fill_gaps_fills_gap_beyond_max_size :
    fill_gaps [((0 : ℤ), some (100 : ℚ)), (3, some 400)] "linear" (some 1) 1 =
      .ok [(0, some 100), (1, some 200), (2, some 300), (3, some 400)] := by
  rw [fill_gaps_linear_eq [((0 : ℤ), some (100 : ℚ)), (3, some 400)] (some 1) 1 0 3
    (by decide) (by decide)]
  rw [show reindexVals [((0 : ℤ), some (100 : ℚ)), (3, some 400)] (fullRange 0 3 1) =
    [some 100, none, none, some 400] from by decide]
  have e1 : interpAt [some 100, none, none, some (400 : ℚ)] (some 1) 1 = some 200 := by
    have h0 : interpAt [some 100, none, none, some (400 : ℚ)] (some 1) 1 =
        interpValue (prevValid [some 100, none, none, some (400 : ℚ)] 1)
          (nextValid [some 100, none, none, some (400 : ℚ)] 1) 1 := rfl
    rw [h0,
      show prevValid [some 100, none, none, some (400 : ℚ)] 1 = some (0, 100) from by decide,
      show nextValid [some 100, none, none, some (400 : ℚ)] 1 = some (3, 400) from by decide]
    simp only [interpValue, Option.some.injEq]
    norm_num
  have e2 : interpAt [some 100, none, none, some (400 : ℚ)] (some 1) 2 = some 300 := by
    have h0 : interpAt [some 100, none, none, some (400 : ℚ)] (some 1) 2 =
        interpValue (prevValid [some 100, none, none, some (400 : ℚ)] 2)
          (nextValid [some 100, none, none, some (400 : ℚ)] 2) 2 := rfl
    rw [h0,
      show prevValid [some 100, none, none, some (400 : ℚ)] 2 = some (0, 100) from by decide,
      show nextValid [some 100, none, none, some (400 : ℚ)] 2 = some (3, 400) from by decide]
    simp only [interpValue, Option.some.injEq]
    norm_num
  have hser : interpolate_series [some 100, none, none, some (400 : ℚ)] (some 1) =
      [interpAt [some 100, none, none, some (400 : ℚ)] (some 1) 0,
       interpAt [some 100, none, none, some (400 : ℚ)] (some 1) 1,
       interpAt [some 100, none, none, some (400 : ℚ)] (some 1) 2,
       interpAt [some 100, none, none, some (400 : ℚ)] (some 1) 3] := rfl
  rw [hser, e1, e2,
    show interpAt [some 100, none, none, some (400 : ℚ)] (some 1) 0 = some 100 from by decide,
    show interpAt [some 100, none, none, some (400 : ℚ)] (some 1) 3 = some 400 from by decide]
  decide

/-- List minimum characterization specialized to `ℤ`. -/
theorem int_min?_eq_some {xs : List ℤ} {a : ℤ} :
    xs.min? = some a ↔ a ∈ xs ∧ ∀ b ∈ xs, a ≤ b := by
  haveI : Std.Antisymm ((· : ℤ) ≤ ·) := ⟨fun h1 h2 => le_antisymm h1 h2⟩
  exact List.min?_eq_some_iff (fun x => le_refl x) (fun x y => min_choice x y)
    (fun x y z => le_min_iff)

/-- List maximum characterization specialized to `ℤ`. -/
theorem int_max?_eq_some {xs : List ℤ} {a : ℤ} :
    xs.max? = some a ↔ a ∈ xs ∧ ∀ b ∈ xs, b ≤ a := by
  haveI : Std.Antisymm ((· : ℤ) ≤ ·) := ⟨fun h1 h2 => le_antisymm h1 h2⟩
  exact List.max?_eq_some_iff (fun x => le_refl x) (fun x y => max_choice x y)
    (fun x y z => max_le_iff)

/-- With no fill limit, linear interpolation produces a value at every
position as soon as the column has at least one valid entry. -/
theorem interpAt_isSome_of_exists (vals : List (Option ℚ)) (i : ℕ)
    (h : ∃ j, (vals.getD j none).isSome = true) :
    (interpAt vals none i).isSome = true := by
  obtain ⟨j, hj⟩ := h
  unfold interpAt
  cases hv : vals.getD i none with
  | some v => simp
  | none =>
    have hij : j ≠ i := by
      intro he
      rw [he, hv] at hj
      simp at hj
    have hjlen : j < vals.length := by
      by_contra hge
      push_neg at hge
      rw [List.getD_eq_getElem?_getD, List.getElem?_eq_none hge] at hj
      simp at hj
    have hwl : withinLimit none (prevValid vals i) (nextValid vals i) i = true := rfl
    rw [hwl, if_pos rfl]
    rcases Nat.lt_or_ge j i with hji | hji
    · have hpne : prevValid vals i ≠ none := by
        unfold prevValid
        rw [Ne, List.getLast?_eq_none_iff, List.filterMap_eq_nil_iff]
        push_neg
        refine ⟨j, List.mem_range.mpr hji, ?_⟩
        simp only [Ne, Option.map_eq_none']
        exact Option.isSome_iff_ne_none.mp hj
      obtain ⟨⟨p, vp⟩, hpv⟩ := Option.ne_none_iff_exists'.mp hpne
      rw [hpv]
      cases hn : nextValid vals i with
      | none => simp [interpValue]
      | some nv =>
        obtain ⟨nn, vn⟩ := nv
        simp [interpValue]
    · have hij' : i < j := lt_of_le_of_ne hji (Ne.symm hij)
      have hnne : nextValid vals i ≠ none := by
        unfold nextValid
        rw [Ne, List.findSome?_eq_none_iff]
        push_neg
        refine ⟨j, ?_, ?_⟩
        · exact List.mem_filter.mpr ⟨List.mem_range.mpr hjlen, by simp [hij']⟩
        · simp only [Ne, Option.map_eq_none']
          exact Option.isSome_iff_ne_none.mp hj
      obtain ⟨⟨nn, vn⟩, hnv⟩ := Option.ne_none_iff_exists'.mp hnne
      rw [hnv]
      cases hp : prevValid vals i with
      | none => simp [interpValue]
      | some pv =>
        obtain ⟨p, vp⟩ := pv
        simp [interpValue]

/-- Lookup in a table keyed by an injective function of the row number. -/
theorem lookup_keyed (g : ℕ → ℤ) (hg : Function.Injective g) (v : ℕ → Option ℚ)
    (l : List ℕ) (k : ℕ) :
    (l.map (fun i => (g i, v i))).lookup (g k) =
      if k ∈ l then some (v k) else none := by
  induction l with
  | nil => simp [List.lookup]
  | cons a l ih =>
    simp only [List.map_cons, List.lookup]
    by_cases hka : k = a
    · subst hka
      simp
    · have hbeq : (g k == g a) = false :=
        beq_eq_false_iff_ne.mpr (fun he => hka (hg he))
      rw [hbeq]
      simp only [List.mem_cons]
      rw [if_congr (iff_of_eq (congrArg _ rfl)) rfl rfl]
      simp only [hka, false_or]
      exact ih

/-- The complete expected range between `lo` and `lo + d * (n - 1)` at
frequency `d` consists of the `n` instants `lo + d * i`. -/
theorem fullRange_eq (lo d : ℤ) (hd : 0 < d) (n : ℕ) (hn : 0 < n) :
    fullRange lo (lo + d * ((n - 1 : ℕ) : ℤ)) d =
      (List.range n).map (fun (i : ℕ) => lo + d * (i : ℤ)) := by
  unfold fullRange
  have hcount : ((lo + d * ((n - 1 : ℕ) : ℤ) - lo) / d).toNat + 1 = n := by
    rw [show lo + d * ((n - 1 : ℕ) : ℤ) - lo = d * ((n - 1 : ℕ) : ℤ) from by ring,
      Int.mul_ediv_cancel_left _ hd.ne', Int.toNat_natCast]
    omega
  rw [hcount]

/-- A complete weather table of `n` rows at frequency `d` starting at `lo`,
with no missing values. -/
def origTable (lo d : ℤ) (f : ℕ → ℚ) (n : ℕ) : List (ℤ × Option ℚ) :=
  (List.range n).map (fun (i : ℕ) => (lo + d * (i : ℤ), some (f i)))

/-- Removing the contiguous block of rows `i0, …, i0 + N - 1` from a
complete table keeps exactly the rows indexed by
`range i0 ++ (range M).map (i0 + N + ·)`. -/
theorem removed_block_eq (lo d : ℤ) (f : ℕ → ℚ) (i0 N M : ℕ) :
    (origTable lo d f (i0 + N + M)).take i0 ++
      (origTable lo d f (i0 + N + M)).drop (i0 + N) =
    (List.range i0 ++ (List.range M).map (fun j => i0 + N + j)).map
      (fun (i : ℕ) => (lo + d * (i : ℤ), some (f i))) := by
  unfold origTable
  rw [List.range_add, List.map_append,
    List.drop_left' (by simp),
    List.take_append_of_le_length (by simp),
    List.range_add, List.map_append,
    List.take_left' (by simp),
    List.map_append, List.map_map]

/-- C9 counterexample: the round-trip fails when the removed contiguous
block touches the table boundary.  Original hourly table
`[(0, 100), (1, 200), (2, 300)]`; removing the block consisting of the last
row (N = 1) leaves 2 rows, and `fill_gaps` returns exactly those 2 rows
(the reindex range is bounded by the remaining index extrema), not
N + 2 = 3 rows. -/
theorem fill_gaps_boundary_block_loss :
    fill_gaps [((0 : ℤ), some (100 : ℚ)), (1, some 200)] "linear" none 1 =
      .ok [(0, some 100), (1, some 200)]
  ∧ ([((0 : ℤ), some (100 : ℚ)), (1, some 200)] : List (ℤ × Option ℚ)).length ≠ 1 + 2 := by
  refine ⟨?_, by decide⟩
  decide

/-- C9 (amended): for a complete table from which one interior contiguous
block of N rows is removed (at least one row remains on each side),
`fill_gaps` with method linear and no `max_gap_size` returns a table of
exactly N plus the remaining rows, with no remaining missing markers. -/
theorem fill_gaps_interior_block_roundtrip (lo d : ℤ) (f : ℕ → ℚ) (i0 N M : ℕ)
    (hd : 0 < d) (hi0 : 0 < i0) (hM : 0 < M) :
    ∃ res,
      fill_gaps ((origTable lo d f (i0 + N + M)).take i0 ++
        (origTable lo d f (i0 + N + M)).drop (i0 + N)) "linear" none d = .ok res
      ∧ res.length = N + ((origTable lo d f (i0 + N + M)).take i0 ++
          (origTable lo d f (i0 + N + M)).drop (i0 + N)).length
      ∧ ∀ p ∈ res, p.2.isSome = true := by
  have hdata := removed_block_eq lo d f i0 N M
  set n : ℕ := i0 + N + M with hn
  set kept : List ℕ := List.range i0 ++ (List.range M).map (fun j => i0 + N + j) with hkept
  set data : List (ℤ × Option ℚ) := (origTable lo d f n).take i0 ++
    (origTable lo d f n).drop (i0 + N) with hdatadef
  have hinj : Function.Injective (fun i : ℕ => lo + d * (i : ℤ)) := by
    intro x y hxy
    simp only [add_right_inj] at hxy
    have := mul_left_cancel₀ hd.ne' hxy
    exact_mod_cast this
  have hidx : data.map Prod.fst = kept.map (fun (i : ℕ) => lo + d * (i : ℤ)) := by
    rw [hdata, List.map_map]
    rfl
  have h0mem : 0 ∈ kept := List.mem_append.mpr (Or.inl (List.mem_range.mpr hi0))
  have hlastmem : i0 + N + (M - 1) ∈ kept :=
    List.mem_append.mpr (Or.inr (List.mem_map.mpr
      ⟨M - 1, List.mem_range.mpr (by omega), rfl⟩))
  have hbound : ∀ i ∈ kept, i ≤ n - 1 := by
    intro i hik
    rcases List.mem_append.mp hik with hik | hik
    · have := List.mem_range.mp hik
      omega
    · obtain ⟨j, hj, rfl⟩ := List.mem_map.mp hik
      have := List.mem_range.mp hj
      omega
  have hmin : (data.map Prod.fst).min? = some lo := by
    rw [hidx]
    apply int_min?_eq_some.mpr
    refine ⟨List.mem_map.mpr ⟨0, h0mem, by simp⟩, ?_⟩
    intro b hb
    obtain ⟨i, _, rfl⟩ := List.mem_map.mp hb
    have : (0 : ℤ) ≤ d * (i : ℤ) := mul_nonneg hd.le (Int.natCast_nonneg i)
    linarith
  have hmax : (data.map Prod.fst).max? = some (lo + d * ((n - 1 : ℕ) : ℤ)) := by
    rw [hidx]
    apply int_max?_eq_some.mpr
    constructor
    · refine List.mem_map.mpr ⟨i0 + N + (M - 1), hlastmem, ?_⟩
      rw [show i0 + N + (M - 1) = n - 1 from by omega]
    · intro b hb
      obtain ⟨i, hik, rfl⟩ := List.mem_map.mp hb
      have hle : i ≤ n - 1 := hbound i hik
      have hle' : (i : ℤ) ≤ ((n - 1 : ℕ) : ℤ) := by exact_mod_cast hle
      have := mul_le_mul_of_nonneg_left hle' hd.le
      linarith
  have hfe := fill_gaps_linear_eq data none d lo (lo + d * ((n - 1 : ℕ) : ℤ)) hmin hmax
  have hfull : fullRange lo (lo + d * ((n - 1 : ℕ) : ℤ)) d =
      (List.range n).map (fun (i : ℕ) => lo + d * (i : ℤ)) :=
    fullRange_eq lo d hd n (by omega)
  have hlenfull : (fullRange lo (lo + d * ((n - 1 : ℕ) : ℤ)) d).length = n := by
    rw [hfull]
    simp
  have hlenvals :
      (reindexVals data (fullRange lo (lo + d * ((n - 1 : ℕ) : ℤ)) d)).length = n := by
    rw [reindexVals, List.length_map, hlenfull]
  have hlk : data.lookup (lo + d * ((0 : ℕ) : ℤ)) = some (some (f 0)) := by
    rw [hdata, lookup_keyed _ hinj _ _ 0, if_pos h0mem]
  have h0some :
      ((reindexVals data (fullRange lo (lo + d * ((n - 1 : ℕ) : ℤ)) d)).getD 0
        none).isSome = true := by
    have h1 : (fullRange lo (lo + d * ((n - 1 : ℕ) : ℤ)) d)[0]? =
        some (lo + d * ((0 : ℕ) : ℤ)) := by
      rw [hfull, List.getElem?_map, List.getElem?_range (show 0 < n by omega)]
      rfl
    rw [reindexVals, List.getD_eq_getElem?_getD, List.getElem?_map, h1]
    simp only [Option.map_some', Option.getD_some]
    rw [hlk]
    rfl
  refine ⟨_, hfe, ?_, ?_⟩
  · rw [List.length_zip, hlenfull]
    rw [show (interpolate_series
        (reindexVals data (fullRange lo (lo + d * ((n - 1 : ℕ) : ℤ)) d)) none).length =
      n from by rw [interpolate_series, List.length_map, List.length_range, hlenvals]]
    have hdl : data.length = i0 + M := by
      rw [hdata, List.length_map, hkept, List.length_append, List.length_range,
        List.length_map, List.length_range]
    rw [hdl]
    omega
  · intro p hp
    obtain ⟨t, v⟩ := p
    have hv := (List.of_mem_zip hp).2
    rw [interpolate_series] at hv
    obtain ⟨j, _, rfl⟩ := List.mem_map.mp hv
    exact interpAt_isSome_of_exists _ j ⟨0, h0some⟩

/-- Witness for `fill_gaps_interior_block_roundtrip`: removing the middle
row of a complete 3-row hourly table. -/
theorem fill_gaps_interior_block_roundtrip_witness :
    ∃ res,
      fill_gaps ((origTable 0 1 (fun i => (i : ℚ)) (1 + 1 + 1)).take 1 ++
        (origTable 0 1 (fun i => (i : ℚ)) (1 + 1 + 1)).drop (1 + 1)) "linear" none 1 =
        .ok res
      ∧ res.length = 1 + ((origTable 0 1 (fun i => (i : ℚ)) (1 + 1 + 1)).take 1 ++
          (origTable 0 1 (fun i => (i : ℚ)) (1 + 1 + 1)).drop (1 + 1)).length
      ∧ ∀ p ∈ res, p.2.isSome = true :=
  fill_gaps_interior_block_roundtrip 0 1 (fun i => (i : ℚ)) 1 1 1
    (by norm_num) (by norm_num) (by norm_num)

end PVSolarSim
